import Mathlib

/-!
Verification development for the timestamp-authority repository.

The Go sources are shallowly embedded here:
* `pkg/verification` (file `unnamed/part_000`): the `VerifyOpts` record, the
  individual response checks (`verifyESSCertID`, `verifyLeafCertSubject`,
  `verifyEmbeddedLeafCert`, `verifyLeafCert`, `verifyExtendedKeyUsage`,
  `verifyLeafAndIntermediatesEKU`, `verifyOID`, `verifyNonce`,
  `verifyHashedMessages`, `verifyTSRWithChain`), the top-level
  `VerifyTimestampResponse` pipeline and `CreateTimestampResponse`.
* `pkg/api/timestamp.go`: `TimestampResponseHandler`.
* `cmd/certificate_maker/certificate_maker.go`: `runCreate`.

External library calls (digitorus/timestamp parsing, pkcs7 parsing and chain
validation, cryptographic digests) are not part of this repository; they are
passed in as explicit function parameters (`ExternalOps`, `HandlerEnv`,
`CMEnv`) so that the repository code itself is modelled exactly.  Go byte
slices are `List Nat`, `big.Int` values are `Int`, nil-able pointers are
`Option`, and a Go runtime panic (nil dereference, index out of range) is the
`none` value of an `Option` result.
-/

set_option maxHeartbeats 1000000

namespace TSA

deriving instance DecidableEq for Except

/-- Extended key usage values (model of the Go `x509.ExtKeyUsage` enumeration;
only the distinctions read by this repository are kept). -/
inductive EKU where
  | timeStamping
  | serverAuth
  | clientAuth
  | codeSigning
deriving DecidableEq

/-- Hash algorithm identifiers (model of Go `crypto.Hash` values). -/
inductive HashAlg where
  | sha1
  | sha256
  | sha384
  | sha512
deriving DecidableEq

/-- Model of `x509.Certificate`: exactly the fields the repository reads.
`raw` stands for the DER bytes `Certificate.Raw` (used by `Certificate.Equal`),
`rawIssuer` for `Certificate.RawIssuer`, `subject` for the rendered
`Certificate.Subject.String()`. -/
structure Cert where
  raw : List Nat
  rawIssuer : List Nat
  serialNumber : Int
  subject : String
  extKeyUsage : List EKU
deriving DecidableEq

/-- Go `x509.Certificate.Equal` compares the raw DER bytes of the two
certificates. -/
def certEqual (a b : Cert) : Bool :=
  a.raw = b.raw

/-- `VerifyOpts` from `pkg/verification` (file part_000, lines 32-41).
`Oid`, `TsaCertificate`, `Intermediates` and `Nonce` are nil-able in Go and
therefore `Option` here.  The Go `HashAlgorithm hash.Hash` field is a function
value never read by the verification path and is omitted. -/
structure VerifyOpts where
  oid : Option (List Int)
  tsaCertificate : Option Cert
  intermediates : Option (List Cert)
  roots : List Cert
  nonce : Option Int
  subject : String
  hashedMessage : List Nat
deriving DecidableEq

/-- The canonical parsed timestamp (model of `timestamp.Timestamp` from the
digitorus library, restricted to the fields this repository reads or writes).
`nonce` is a nil-able `*big.Int`.  `certificates` models `ts.Certificates`
and `rawToken` models `ts.RawToken`. -/
structure Timestamp where
  hashAlgorithm : HashAlg
  hashedMessage : List Nat
  time : Int
  accuracy : Int
  nonce : Option Int
  policy : List Int
  ordering : Bool
  qualified : Bool
  addTSACertificate : Bool
  extensions : List (List Nat)
  certificates : List Cert
  rawToken : List Nat
deriving DecidableEq

/-- Opaque model of a parsed `pkcs7.PKCS7` message. -/
structure P7Message where
  raw : List Nat
deriving DecidableEq

/-- Outcome of the external `timestamp.ParseResponse` call.  The digitorus
library returns a `timestamp.ParseError` (here `parseError`) for tokens it can
read but must refuse — in particular a token whose PKIStatus encodes a
non-success status, i.e. the producing authority rejected the request — and
other error values (here `otherError`, e.g. ASN.1 unmarshalling failures) for
byte sequences that are not a structurally valid response. -/
inductive ParseResult where
  | success (ts : Timestamp)
  | parseError (msg : String)
  | otherError (msg : String)
deriving DecidableEq

/-- The external library operations `VerifyTimestampResponse` calls out to:
`timestamp.ParseResponse`, `pkcs7.Parse`, `(*pkcs7.PKCS7).VerifyWithChain`,
and digest computation `hash.Hash` selected by the algorithm of the response. -/
structure ExternalOps where
  parseResponse : List Nat → ParseResult
  pkcs7Parse : List Nat → Except String P7Message
  verifyWithChain : P7Message → List Cert → Except String Unit
  hashEval : HashAlg → List Nat → List Nat

/-- `verifyESSCertID` (part_000 lines 44-67): compares raw issuer bytes and
serial number of the embedded leaf certificate against the expected TSA
certificate, accumulating an error message string exactly as the source does
(including the issuer text the source copy-pastes for the serial mismatch). -/
def verifyESSCertID (tsaCert : Cert) (opts : VerifyOpts) : Except String Unit :=
  match opts.tsaCertificate with
  | none => .ok ()
  | some expected =>
    let errMessage :=
      if expected.rawIssuer ≠ tsaCert.rawIssuer then
        "TSR cert issuer does not match provided TSA cert issuer"
      else ""
    let errMessage :=
      if expected.serialNumber ≠ tsaCert.serialNumber then
        if errMessage ≠ "" then
          errMessage ++ ", TSR cert issuer does not match provided TSA cert issuer"
        else
          "TSR cert issuer does not match provided TSA cert issuer"
      else errMessage
    if errMessage ≠ "" then .error errMessage else .ok ()

/-- `verifyLeafCertSubject` (part_000 lines 70-79): compares the rendered
subject of `opts.TsaCertificate` with the subject string passed in (the
caller passes the subject of the embedded leaf certificate). -/
def verifyLeafCertSubject (subject : String) (opts : VerifyOpts) : Except String Unit :=
  match opts.tsaCertificate with
  | none => .ok ()
  | some expected =>
    let leafCertSubject := expected.subject
    if leafCertSubject ≠ subject then
      .error ("Leaf cert subject " ++ leafCertSubject ++
        " does not match provided subject " ++ subject)
    else .ok ()

/-- `verifyEmbeddedLeafCert` (part_000 lines 82-87). -/
def verifyEmbeddedLeafCert (tsaCert : Cert) (opts : VerifyOpts) : Except String Unit :=
  match opts.tsaCertificate with
  | none => .ok ()
  | some expected =>
    if ¬ certEqual expected tsaCert then
      .error "certificate embedded in the TSR does not match the provided TSA certificate"
    else .ok ()

/-- `verifyLeafCert` (part_000 lines 89-107).  The source calls the three
sub-checks and builds wrapped errors with `fmt.Errorf`, but never returns
them — each `fmt.Errorf` result is discarded and the function falls through
to `return nil`.  The embedding therefore binds the sub-check results to
unused lets and returns success. -/
def verifyLeafCert (cert : Cert) (opts : VerifyOpts) : Except String Unit :=
  let _e1 := verifyESSCertID cert opts
  let _e2 := verifyLeafCertSubject cert.subject opts
  let _e3 := verifyEmbeddedLeafCert cert opts
  .ok ()

/-- `verifyExtendedKeyUsage` (part_000 lines 109-119): the certificate must
carry exactly one extended key usage and it must be time stamping.  The
source indexes `cert.ExtKeyUsage[0]` after checking the length is 1;
`head?` reads the same element. -/
def verifyExtendedKeyUsage (cert : Cert) : Except String Unit :=
  let certEKULen := cert.extKeyUsage.length
  if certEKULen ≠ 1 then
    .error ("cert has " ++ Nat.repr certEKULen ++ " extended key usages, expected only one")
  else if cert.extKeyUsage.head? ≠ some EKU.timeStamping then
    .error "leaf cert EKU is not set to TimeStamping as required"
  else .ok ()

/-- The `for _, cert := range opts.Intermediates` loop of
`verifyLeafAndIntermediatesEKU` (part_000 lines 133-138). -/
def intermediatesEKULoop : List Cert → Except String Unit
  | [] => .ok ()
  | cert :: rest =>
    match verifyExtendedKeyUsage cert with
    | .error e => .error ("failed to verify EKU on intermediate cert: " ++ e)
    | .ok _ => intermediatesEKULoop rest

/-- `verifyLeafAndIntermediatesEKU` (part_000 lines 123-140): a no-op when the
expected TSA certificate or the intermediate set is nil; otherwise the leaf
and every intermediate must pass `verifyExtendedKeyUsage`. -/
def verifyLeafAndIntermediatesEKU (opts : VerifyOpts) : Except String Unit :=
  match opts.tsaCertificate, opts.intermediates with
  | none, _ => .ok ()
  | some _, none => .ok ()
  | some leafCert, some inters =>
    match verifyExtendedKeyUsage leafCert with
    | .error e => .error ("failed to verify EKU on leaf cert: " ++ e)
    | .ok _ => intermediatesEKULoop inters

/-- The index loop of `verifyOID` (part_000 lines 151-155): walk the response
OID and the expected OID in lockstep and fail on the first differing
component.  The caller has already established equal lengths. -/
def verifyOIDLoop : List Int → List Int → Except String Unit
  | [], _ => .ok ()
  | _ :: _, [] => .ok ()
  | v :: vs, r :: rs =>
    if v ≠ r then .error "OID content does not match"
    else verifyOIDLoop vs rs

/-- `verifyOID` (part_000 lines 143-157): a no-op when `opts.Oid` is nil;
otherwise the lengths must agree and every component must agree. -/
def verifyOID (oid : List Int) (opts : VerifyOpts) : Except String Unit :=
  match opts.oid with
  | none => .ok ()
  | some responseOid =>
    if oid.length ≠ responseOid.length then .error "OID lengths do not match"
    else verifyOIDLoop oid responseOid

/-- `verifyNonce` (part_000 lines 160-168): a no-op when `opts.Nonce` is nil;
otherwise `opts.Nonce.Cmp(requestNonce)` is evaluated — when the response
carries no nonce (`requestNonce` nil) that call dereferences a nil pointer,
modelled as the `none` result. -/
def verifyNonce (requestNonce : Option Int) (opts : VerifyOpts) :
    Option (Except String Unit) :=
  match opts.nonce with
  | none => some (.ok ())
  | some expected =>
    match requestNonce with
    | none => none
    | some r =>
      if expected ≠ r then
        some (.error ("incoming nonce " ++ Int.repr r ++
          " does not match TSR nonce " ++ Int.repr expected))
      else some (.ok ())

/-- `verifyHashedMessages` (part_000 lines 228-240): stream the artifact
through the hash algorithm of the response and compare the digest with the
hashed message of the response.  The digest computation is the external `digest`
function argument; reading from an in-memory list cannot fail, so the
`io.Copy` error branch has no counterpart. -/
def verifyHashedMessages (digest : List Nat → List Nat) (hashedMessage : List Nat)
    (artifact : List Nat) : Except String Unit :=
  let localHashedMsg := digest artifact
  if localHashedMsg ≠ hashedMessage then .error "hashed messages don\x27t match"
  else .ok ()

/-- `verifyTSRWithChain` (part_000 lines 213-225): parse the raw token as
PKCS7 and verify it against the supplied certificate pool, wrapping the two
possible external failures with the message prefixes of the source. -/
def verifyTSRWithChain (pkcs7Parse : List Nat → Except String P7Message)
    (verifyWithChain : P7Message → List Cert → Except String Unit)
    (ts : Timestamp) (certPool : List Cert) : Except String Unit :=
  match pkcs7Parse ts.rawToken with
  | .error e => .error ("error parsing hashed message: " ++ e)
  | .ok p7Message =>
    match verifyWithChain p7Message certPool with
    | .error e => .error ("error while verifying with chain: " ++ e)
    | .ok _ => .ok ()

/-- `VerifyTimestampResponse` (part_000 lines 171-211): parse, then run the
checks in source order — signature/chain, nonce, OID, EKU chaining, leaf
certificate, hash equality.  The leaf step reads `ts.Certificates[0]`
without a length guard; on an empty certificate list that Go expression
panics with an index-out-of-range, modelled as the `none` result. -/
def VerifyTimestampResponse (ext : ExternalOps) (tsrBytes : List Nat)
    (artifact : List Nat) (certPool : List Cert) (opts : VerifyOpts) :
    Option (Except String Unit) :=
  match ext.parseResponse tsrBytes with
  | .parseError e => some (.error ("timestamp response is not valid: " ++ e))
  | .otherError e => some (.error ("error parsing response into Timestamp: " ++ e))
  | .success ts =>
    match verifyTSRWithChain ext.pkcs7Parse ext.verifyWithChain ts certPool with
    | .error e => some (.error e)
    | .ok _ =>
      match verifyNonce ts.nonce opts with
      | none => none
      | some (.error e) => some (.error e)
      | some (.ok _) =>
        match verifyOID ts.policy opts with
        | .error e => some (.error e)
        | .ok _ =>
          match verifyLeafAndIntermediatesEKU opts with
          | .error e => some (.error e)
          | .ok _ =>
            match ts.certificates with
            | [] => none
            | c0 :: _ =>
              match verifyLeafCert c0 opts with
              | .error e => some (.error e)
              | .ok _ =>
                some (verifyHashedMessages (ext.hashEval ts.hashAlgorithm)
                  ts.hashedMessage artifact)

/-- `CreateTimestampResponse` (part_000 lines 242-255): parse the response
bytes, mapping a library `timestamp.ParseError` (which covers tokens whose
status reports the producing authority rejected the request) and any other
parse failure to two differently prefixed errors. -/
def CreateTimestampResponse (parseResponse : List Nat → ParseResult)
    (tsrBytes : List Nat) : Except String Timestamp :=
  match parseResponse tsrBytes with
  | .parseError e => .error ("timestamp response is not valid: " ++ e)
  | .otherError e => .error ("error parsing response into Timestamp: " ++ e)
  | .success ts => .ok ts

/-- The decoded timestamp request (model of `timestamp.Request` from the
digitorus library, restricted to the fields the handler reads). -/
structure TSRequest where
  hashAlgorithm : HashAlg
  hashedMessage : List Nat
  nonce : Option Int
  tsaPolicyOID : List Int
  certificates : Bool
  extensions : List (List Nat)
deriving DecidableEq

/-- Rendering of an `asn1.ObjectIdentifier` as a string, as the Go
method `ObjectIdentifier.String()` does: components joined by dots. -/
def oidString : List Int → String
  | [] => ""
  | [v] => Int.repr v
  | v :: rest => Int.repr v ++ "." ++ oidString rest

/-- The fixed default policy OID `1.3.6.1.4.1.57264.2` from
`pkg/api/timestamp.go` line 63. -/
def defaultPolicyOID : List Int := [1, 3, 6, 1, 4, 1, 57264, 2]

/-- The policy defaulting of `TimestampResponseHandler` (timestamp.go lines
61-64): keep the OID of the request unless its rendered string is empty. -/
def responsePolicyID (reqOID : List Int) : List Int :=
  if oidString reqOID = "" then defaultPolicyOID else reqOID

/-- The `tsStruct` literal of `TimestampResponseHandler` (timestamp.go lines
66-80).  `certificates` and `rawToken` are zero values here: they are
populated later by the external `CreateResponse`. -/
def buildTimestamp (now : Int) (req : TSRequest) : Timestamp :=
  { hashAlgorithm := req.hashAlgorithm
    hashedMessage := req.hashedMessage
    time := now
    accuracy := 1
    nonce := req.nonce
    policy := responsePolicyID req.tsaPolicyOID
    ordering := false
    qualified := false
    addTSACertificate := req.certificates
    extensions := req.extensions
    certificates := []
    rawToken := [] }

/-- Which serializer `TimestampResponseHandler` picks (timestamp.go lines
82-87): `json.Marshal` exactly when the `contentType` variable equals
"application/json", else `asn1.Marshal`. -/
inductive MarshalKind where
  | json
  | der
deriving DecidableEq

/-- The marshaller selection expression (timestamp.go lines 83-87). -/
def selectMarshalKind (contentType : String) : MarshalKind :=
  if contentType = "application/json" then .json else .der

/-- Observable steps taken by the handler; used to state which collaborators
the handler invoked and with which arguments. -/
inductive HEvent where
  | readAll
  | parseJSONCalled
  | parseASN1Called
  | verifyRequestCalled (req : Option TSRequest)
  | marshalSelected (kind : MarshalKind)
  | createResponseCalled (ts : Timestamp) (kind : MarshalKind)
deriving DecidableEq

/-- Responses the handler can produce (model of the middleware responders in
timestamp.go): a 400, a 500, or the 201 with the response payload. -/
inductive HandlerOutcome where
  | badRequest (msg : String)
  | internalError (msg : String)
  | created (payload : List Nat)
deriving DecidableEq

/-- The collaborators of the handler: body reading, the two request decoders
(digitorus `ParseJSONRequest` / `ParseASN1Request`), request validation
(`verification.VerifyRequest`, a repository function outside the available
sources, hence kept abstract), the current time, and the external
`tsStruct.CreateResponse`. -/
structure HandlerEnv where
  readBody : Except String (List Nat)
  parseJSONRequest : List Nat → Except String TSRequest
  parseASN1Request : List Nat → Except String TSRequest
  verifyRequest : Option TSRequest → Except String Unit
  now : Int
  createResponse : Timestamp → MarshalKind → Except String (List Nat)

/-- `TimestampResponseHandler` from the request-validation call onward
(timestamp.go lines 57-93).  `req.TSAPolicyOID` on line 61 dereferences
`req`; with a nil request that is a nil-pointer panic, modelled as the
`none` outcome. -/
def handlerAfterDecode (env : HandlerEnv) (contentType : String)
    (req : Option TSRequest) : List HEvent × Option HandlerOutcome :=
  match env.verifyRequest req with
  | .error e => ([.verifyRequestCalled req], some (.badRequest e))
  | .ok _ =>
    match req with
    | none => ([.verifyRequestCalled req], none)
    | some r =>
      let tsStruct := buildTimestamp env.now r
      let kind := selectMarshalKind contentType
      ([.verifyRequestCalled req, .marshalSelected kind,
        .createResponseCalled tsStruct kind],
       match env.createResponse tsStruct kind with
       | .error e => some (.internalError e)
       | .ok resp => some (.created resp))

/-- `TimestampResponseHandler` (timestamp.go lines 31-94).  The decode stage
dispatches on the Content-Type header: JSON and timestamp-query each run
their parser and 400 on parse failure; any other header skips both parsers,
leaving `req` nil and the `contentType` variable at its zero value "". -/
def TimestampResponseHandler (env : HandlerEnv) (header : String) :
    List HEvent × Option HandlerOutcome :=
  match env.readBody with
  | .error e => ([.readAll], some (.badRequest e))
  | .ok requestBytes =>
    if header = "application/json" then
      match env.parseJSONRequest requestBytes with
      | .error e => ([.readAll, .parseJSONCalled], some (.badRequest e))
      | .ok jsonReq =>
        let rest := handlerAfterDecode env "application/json" (some jsonReq)
        (.readAll :: .parseJSONCalled :: rest.1, rest.2)
    else if header = "application/timestamp-query" then
      match env.parseASN1Request requestBytes with
      | .error e => ([.readAll, .parseASN1Called], some (.badRequest e))
      | .ok asn1Req =>
        let rest := handlerAfterDecode env "application/timestamp-query" (some asn1Req)
        (.readAll :: .parseASN1Called :: rest.1, rest.2)
    else
      let rest := handlerAfterDecode env "" none
      (.readAll :: rest.1, rest.2)

/-- Certificate-maker configuration fields read by `runCreate`
(certificate_maker.go lines 133-139 and the viper template lookups). -/
structure CMConfig where
  kmsType : String
  rootKeyID : String
  intermediateKeyID : String
  leafKeyID : String
  rootTemplate : String
  leafTemplate : String
  intermediateTemplate : String
deriving DecidableEq

/-- The certificate-maker collaborators: `certmaker.InitKMS`,
`certmaker.ValidateTemplatePath` and `certmaker.CreateCertificates` live in
`pkg/certmaker`, outside the available sources, and are kept abstract.  Per
the specification (section 4.2) the remote signing calls happen inside
`CreateCertificates`, one per role. -/
structure CMEnv where
  initKMS : Except String Unit
  validateTemplatePath : String → Except String Unit
  createCertificates : Except String Unit

/-- Observable steps taken by `runCreate`. -/
inductive CMEvent where
  | initKMSCalled
  | validated (path : String)
  | createCertificatesCalled
deriving DecidableEq

/-- `runCreate` (certificate_maker.go lines 127-190): initialize the KMS,
validate the root and leaf template paths, validate the intermediate
template path when an intermediate key id is configured, and only then call
`CreateCertificates`. -/
def runCreate (env : CMEnv) (cfg : CMConfig) : List CMEvent × Except String Unit :=
  match env.initKMS with
  | .error e => ([.initKMSCalled], .error ("failed to initialize KMS: " ++ e))
  | .ok _ =>
    match env.validateTemplatePath cfg.rootTemplate with
    | .error e =>
      ([.initKMSCalled, .validated cfg.rootTemplate],
        .error ("root template error: " ++ e))
    | .ok _ =>
      match env.validateTemplatePath cfg.leafTemplate with
      | .error e =>
        ([.initKMSCalled, .validated cfg.rootTemplate, .validated cfg.leafTemplate],
          .error ("leaf template error: " ++ e))
      | .ok _ =>
        if cfg.intermediateKeyID ≠ "" then
          match env.validateTemplatePath cfg.intermediateTemplate with
          | .error e =>
            ([.initKMSCalled, .validated cfg.rootTemplate, .validated cfg.leafTemplate,
              .validated cfg.intermediateTemplate],
              .error ("intermediate template error: " ++ e))
          | .ok _ =>
            ([.initKMSCalled, .validated cfg.rootTemplate, .validated cfg.leafTemplate,
              .validated cfg.intermediateTemplate, .createCertificatesCalled],
              env.createCertificates)
        else
          ([.initKMSCalled, .validated cfg.rootTemplate, .validated cfg.leafTemplate,
            .createCertificatesCalled],
            env.createCertificates)

/-- The six checks of `VerifyTimestampResponse` in source order (part_000
lines 184-210): signature/chain, nonce, policy OID, EKU chaining, leaf
certificate, hash equality.  The leaf entry is `none` (a panic) when the
token embeds no certificate, mirroring the unguarded `ts.Certificates[0]`. -/
def verificationChecks (ext : ExternalOps) (ts : Timestamp) (artifact : List Nat)
    (certPool : List Cert) (opts : VerifyOpts) : List (Option (Except String Unit)) :=
  [some (verifyTSRWithChain ext.pkcs7Parse ext.verifyWithChain ts certPool),
   verifyNonce ts.nonce opts,
   some (verifyOID ts.policy opts),
   some (verifyLeafAndIntermediatesEKU opts),
   (match ts.certificates with
    | [] => none
    | c0 :: _ => some (verifyLeafCert c0 opts)),
   some (verifyHashedMessages (ext.hashEval ts.hashAlgorithm) ts.hashedMessage artifact)]

/-- Declarative first-failure semantics: the result of a check sequence is the
outcome of the first check that does not succeed (a panic stays a panic),
and success when every check succeeds. -/
def firstFailure : List (Option (Except String Unit)) → Option (Except String Unit)
  | [] => some (.ok ())
  | check :: rest =>
    match check with
    | none => none
    | some (.error e) => some (.error e)
    | some (.ok _) => firstFailure rest

/-! ### Concrete fixtures used by witnesses and counterexamples -/

/-- A leaf certificate of the authority, EKU = exactly time stamping. -/
def certTS : Cert :=
  { raw := [1], rawIssuer := [2], serialNumber := 7, subject := "O=TSA",
    extKeyUsage := [EKU.timeStamping] }

/-- A different certificate: different raw bytes, issuer, serial, subject. -/
def certOther : Cert :=
  { raw := [9], rawIssuer := [8], serialNumber := 5, subject := "O=Other",
    extKeyUsage := [EKU.serverAuth] }

/-- A parsed response as the authority would produce it for `reqGood`. -/
def tsGood : Timestamp :=
  { hashAlgorithm := .sha256, hashedMessage := [3, 4], time := 0, accuracy := 1,
    nonce := some 5, policy := [1, 2, 3], ordering := false, qualified := false,
    addTSACertificate := true, extensions := [], certificates := [certTS],
    rawToken := [6] }

/-- A parsed response embedding no certificate, carrying nonce 2. -/
def tsNoCerts : Timestamp :=
  { tsGood with certificates := [], nonce := some 2 }

/-- External operations under which `tsGood` parses and its signature
verifies, and the digest function is the identity. -/
def extGood : ExternalOps :=
  { parseResponse := fun _ => .success tsGood
    pkcs7Parse := fun bytes => .ok { raw := bytes }
    verifyWithChain := fun _ _ => .ok ()
    hashEval := fun _ l => l }

/-- External operations under which `tsNoCerts` parses and verifies. -/
def extNoCerts : ExternalOps :=
  { extGood with parseResponse := fun _ => .success tsNoCerts }

/-- Options with every expectation absent. -/
def optsEmpty : VerifyOpts :=
  { oid := none, tsaCertificate := none, intermediates := none, roots := [],
    nonce := none, subject := "", hashedMessage := [] }

/-- Options matching `reqGood` and the authority identity `certTS`. -/
def optsMatch : VerifyOpts :=
  { oid := some (responsePolicyID [1, 2, 3]), tsaCertificate := some certTS,
    intermediates := some [], roots := [], nonce := some 5, subject := "",
    hashedMessage := [] }

/-- Options expecting `certOther` as the leaf certificate. -/
def optsExpectOther : VerifyOpts :=
  { optsEmpty with tsaCertificate := some certOther }

/-- Options expecting nonce 1 only. -/
def optsNonce1 : VerifyOpts :=
  { optsEmpty with nonce := some 1 }

/-- Options expecting leaf `certTS` and the intermediate set `[certOther]`. -/
def optsEKUMix : VerifyOpts :=
  { optsEmpty with tsaCertificate := some certTS, intermediates := some [certOther] }

/-- A valid request: SHA-256, nonce 5, policy OID 1.2.3, certificates asked. -/
def reqGood : TSRequest :=
  { hashAlgorithm := .sha256, hashedMessage := [3, 4], nonce := some 5,
    tsaPolicyOID := [1, 2, 3], certificates := true, extensions := [] }

/-- A handler environment whose collaborators all succeed. -/
def envGood : HandlerEnv :=
  { readBody := .ok [0]
    parseJSONRequest := fun _ => .error "unused"
    parseASN1Request := fun _ => .error "unused"
    verifyRequest := fun _ => .ok ()
    now := 0
    createResponse := fun _ _ => .ok [7] }

/-- A certificate-maker environment whose root template fails validation. -/
def cmEnvBadRoot : CMEnv :=
  { initKMS := .ok ()
    validateTemplatePath := fun path =>
      if path = "root.json" then .error "template not found at root.json" else .ok ()
    createCertificates := .ok () }

/-- A certificate-maker environment whose collaborators all succeed. -/
def cmEnvGood : CMEnv :=
  { initKMS := .ok ()
    validateTemplatePath := fun _ => .ok ()
    createCertificates := .ok () }

/-- A certificate-maker configuration with an intermediate key configured. -/
def cmCfg : CMConfig :=
  { kmsType := "awskms", rootKeyID := "arn:root", intermediateKeyID := "arn:int",
    leafKeyID := "arn:leaf", rootTemplate := "root.json", leafTemplate := "leaf.json",
    intermediateTemplate := "intermediate.json" }

/-! ### Helper lemmas -/

theorem verifyLeafCert_eq_ok (cert : Cert) (opts : VerifyOpts) :
    verifyLeafCert cert opts = .ok () := rfl

theorem verifyExtendedKeyUsage_ok_iff (cert : Cert) :
    verifyExtendedKeyUsage cert = .ok () ↔ cert.extKeyUsage = [EKU.timeStamping] := by
  unfold verifyExtendedKeyUsage
  match h : cert.extKeyUsage with
  | [] => simp
  | [e] => cases e <;> simp [List.head?]
  | a :: b :: rest => simp [List.length]

theorem intermediatesEKULoop_ok_iff (l : List Cert) :
    intermediatesEKULoop l = .ok () ↔ ∀ c ∈ l, c.extKeyUsage = [EKU.timeStamping] := by
  induction l with
  | nil => simp [intermediatesEKULoop]
  | cons c rest ih =>
    unfold intermediatesEKULoop
    cases h : verifyExtendedKeyUsage c with
    | error e =>
      simp only [List.mem_cons]
      constructor
      · intro habs; exact absurd habs (by simp)
      · intro hall
        have : verifyExtendedKeyUsage c = .ok () :=
          (verifyExtendedKeyUsage_ok_iff c).2 (hall c (Or.inl rfl))
        rw [h] at this
        exact absurd this (by simp)
    | ok u =>
      cases u
      have hc : c.extKeyUsage = [EKU.timeStamping] :=
        (verifyExtendedKeyUsage_ok_iff c).1 h
      simp [ih, hc]

theorem verifyOIDLoop_self (l : List Int) : verifyOIDLoop l l = .ok () := by
  induction l with
  | nil => rfl
  | cons v vs ih => simp [verifyOIDLoop, ih]

theorem verifyOID_self (l : List Int) (opts : VerifyOpts) (h : opts.oid = some l) :
    verifyOID l opts = .ok () := by
  simp [verifyOID, h, verifyOIDLoop_self]

theorem toDigitsCore_length_le (b : Nat) :
    ∀ (fuel n : Nat) (ds : List Char),
      ds.length ≤ (Nat.toDigitsCore b fuel n ds).length := by
  intro fuel
  induction fuel with
  | zero => intro n ds; simp [Nat.toDigitsCore]
  | succ fuel ih =>
    intro n ds
    unfold Nat.toDigitsCore
    by_cases h : n / b = 0
    · simp [h]
    · simp only [h, if_false]
      calc ds.length ≤ (Nat.digitChar (n % b) :: ds).length := by simp
        _ ≤ _ := ih (n / b) (Nat.digitChar (n % b) :: ds)

theorem toDigits_ne_nil (b n : Nat) : Nat.toDigits b n ≠ [] := by
  unfold Nat.toDigits
  show Nat.toDigitsCore b (n + 1) n [] ≠ []
  unfold Nat.toDigitsCore
  by_cases h : n / b = 0
  · simp [h]
  · simp only [h, if_false]
    intro habs
    have hlen := toDigitsCore_length_le b n (n / b) [Nat.digitChar (n % b)]
    rw [habs] at hlen
    simp at hlen

theorem natRepr_ne_empty (n : Nat) : Nat.repr n ≠ "" := by
  unfold Nat.repr
  intro h
  have hd : (List.asString (Nat.toDigits 10 n)).data = "".data := by rw [h]
  have : Nat.toDigits 10 n = [] := hd
  exact toDigits_ne_nil 10 n this

theorem intRepr_ne_empty (v : Int) : Int.repr v ≠ "" := by
  cases v with
  | ofNat m => exact natRepr_ne_empty m
  | negSucc m =>
    show "-" ++ Nat.repr (m + 1) ≠ ""
    intro h
    have hlen := congrArg String.length h
    rw [String.length_append, String.length_empty] at hlen
    have hone : ("-" : String).length = 1 := rfl
    omega

theorem string_eq_empty_of_length_zero (s : String) (h : s.length = 0) : s = "" := by
  cases s with
  | mk data =>
    cases data with
    | nil => rfl
    | cons c cs => simp [String.length] at h

theorem string_append_ne_empty_left (s t : String) (hs : s ≠ "") : s ++ t ≠ "" := by
  intro h
  have hlen := congrArg String.length h
  rw [String.length_append, String.length_empty] at hlen
  have hz : s.length = 0 := by omega
  exact hs (string_eq_empty_of_length_zero s hz)

theorem oidString_ne_empty (l : List Int) (h : l ≠ []) : oidString l ≠ "" := by
  match l with
  | [v] => exact intRepr_ne_empty v
  | v :: w :: rest =>
    show Int.repr v ++ "." ++ oidString (w :: rest) ≠ ""
    exact string_append_ne_empty_left _ _
      (string_append_ne_empty_left _ _ (intRepr_ne_empty v))

theorem string_data_append (s t : String) : (s ++ t).data = s.data ++ t.data :=
  String.data_append s t

theorem rejected_ne_malformed (e1 e2 : String) :
    ("timestamp response is not valid: " ++ e1) ≠
      ("error parsing response into Timestamp: " ++ e2) := by
  intro h
  have h1 : ("timestamp response is not valid: " ++ e1).data.head? = some 't' := by
    rw [string_data_append]
    rfl
  have h2 : ("error parsing response into Timestamp: " ++ e2).data.head? = some 'e' := by
    rw [string_data_append]
    rfl
  rw [h, h2] at h1
  exact absurd h1 (by simp)

/-! ### Claim theorems -/

/-- C1: the claim states that when an expected leaf certificate is supplied,
each of the three leaf-identity sub-checks is enforced and any failure makes
the verify operation return a leaf-certificate-mismatch failure.  The code
contradicts this: `verifyLeafCert` builds the wrapped errors with
`fmt.Errorf` but never returns them, so it returns nil unconditionally.
At this concrete input every sub-check fails, yet `verifyLeafCert` reports
success and the whole verification succeeds. -/
theorem c1_leaf_identity_checks_discarded :
    verifyESSCertID certTS optsExpectOther ≠ .ok () ∧
    verifyLeafCertSubject certTS.subject optsExpectOther ≠ .ok () ∧
    verifyEmbeddedLeafCert certTS optsExpectOther ≠ .ok () ∧
    verifyLeafCert certTS optsExpectOther = .ok () ∧
    VerifyTimestampResponse extGood [0] [3, 4] [] optsExpectOther =
      some (.ok ()) := by
  refine ⟨by decide, by decide, by decide, rfl, by decide⟩

/-- C4: with an expected leaf certificate and an intermediate set supplied,
the EKU-chaining check succeeds exactly when every certificate among the
leaf and the intermediates carries extended key usage equal to the single
value time stamping; otherwise it fails with an invalid-EKU error. -/
theorem c4_eku_chaining (leafCert : Cert) (inters : List Cert) (opts : VerifyOpts)
    (hleaf : opts.tsaCertificate = some leafCert)
    (hint : opts.intermediates = some inters) :
    verifyLeafAndIntermediatesEKU opts = .ok () ↔
      ∀ c ∈ leafCert :: inters, c.extKeyUsage = [EKU.timeStamping] := by
  unfold verifyLeafAndIntermediatesEKU
  rw [hleaf, hint]
  cases h : verifyExtendedKeyUsage leafCert with
  | error e =>
    simp only [h, List.mem_cons]
    constructor
    · intro habs; exact absurd habs (by simp)
    · intro hall
      have hok : verifyExtendedKeyUsage leafCert = .ok () :=
        (verifyExtendedKeyUsage_ok_iff leafCert).2 (hall leafCert (Or.inl rfl))
      rw [h] at hok
      exact absurd hok (by simp)
  | ok u =>
    cases u
    have hl : leafCert.extKeyUsage = [EKU.timeStamping] :=
      (verifyExtendedKeyUsage_ok_iff leafCert).1 h
    simp only [h]
    simp [intermediatesEKULoop_ok_iff, hl]

/-- C4 witness: leaf with time-stamping EKU but an intermediate with
server-auth EKU, at which the iff is applied concretely. -/
theorem c4_eku_chaining_witness :
    verifyLeafAndIntermediatesEKU optsEKUMix = .ok () ↔
      ∀ c ∈ certTS :: [certOther], c.extKeyUsage = [EKU.timeStamping] :=
  c4_eku_chaining certTS [certOther] optsEKUMix rfl rfl

/-- C5: every absent expectation (nil nonce, nil policy OID, nil expected
leaf certificate, nil intermediate set) makes the corresponding check return
success unconditionally. -/
theorem c5_absent_expectation_never_rejects :
    (∀ (requestNonce : Option Int) (opts : VerifyOpts), opts.nonce = none →
      verifyNonce requestNonce opts = some (.ok ())) ∧
    (∀ (oid : List Int) (opts : VerifyOpts), opts.oid = none →
      verifyOID oid opts = .ok ()) ∧
    (∀ (c : Cert) (opts : VerifyOpts), opts.tsaCertificate = none →
      verifyESSCertID c opts = .ok () ∧
      verifyLeafCertSubject c.subject opts = .ok () ∧
      verifyEmbeddedLeafCert c opts = .ok () ∧
      verifyLeafCert c opts = .ok ()) ∧
    (∀ opts : VerifyOpts, opts.tsaCertificate = none ∨ opts.intermediates = none →
      verifyLeafAndIntermediatesEKU opts = .ok ()) := by
  refine ⟨?_, ?_, ?_, ?_⟩
  · intro requestNonce opts h
    simp [verifyNonce, h]
  · intro oid opts h
    simp [verifyOID, h]
  · intro c opts h
    exact ⟨by simp [verifyESSCertID, h], by simp [verifyLeafCertSubject, h],
      by simp [verifyEmbeddedLeafCert, h], verifyLeafCert_eq_ok c opts⟩
  · intro opts h
    cases h with
    | inl h => simp [verifyLeafAndIntermediatesEKU, h]
    | inr h =>
      cases hc : opts.tsaCertificate <;>
        simp [verifyLeafAndIntermediatesEKU, h, hc]

/-- C5 witness: the four conjuncts applied at concrete absent options. -/
theorem c5_absent_expectation_never_rejects_witness :
    verifyNonce (some 2) optsEmpty = some (.ok ()) ∧
    verifyOID [1, 2] optsEmpty = .ok () ∧
    verifyESSCertID certTS optsEmpty = .ok () ∧
    verifyLeafAndIntermediatesEKU optsEmpty = .ok () :=
  ⟨c5_absent_expectation_never_rejects.1 (some 2) optsEmpty rfl,
   c5_absent_expectation_never_rejects.2.1 [1, 2] optsEmpty rfl,
   (c5_absent_expectation_never_rejects.2.2.1 certTS optsEmpty rfl).1,
   c5_absent_expectation_never_rejects.2.2.2 optsEmpty (Or.inl rfl)⟩

/-- C6: a token the library reads but refuses with a `timestamp.ParseError`
(in particular one whose status says the producing authority rejected the
request) is reported with the "timestamp response is not valid" prefix,
while bytes that are not a structurally valid token are reported with the
"error parsing response into Timestamp" prefix, and no error of the first
form equals an error of the second form. -/
theorem c6_rejected_distinct_from_malformed (pr : List Nat → ParseResult)
    (ext : ExternalOps) (tsrBytes artifact : List Nat) (pool : List Cert)
    (opts : VerifyOpts) :
    (∀ e, pr tsrBytes = .parseError e →
      CreateTimestampResponse pr tsrBytes =
        .error ("timestamp response is not valid: " ++ e)) ∧
    (∀ e, pr tsrBytes = .otherError e →
      CreateTimestampResponse pr tsrBytes =
        .error ("error parsing response into Timestamp: " ++ e)) ∧
    (∀ e, ext.parseResponse tsrBytes = .parseError e →
      VerifyTimestampResponse ext tsrBytes artifact pool opts =
        some (.error ("timestamp response is not valid: " ++ e))) ∧
    (∀ e, ext.parseResponse tsrBytes = .otherError e →
      VerifyTimestampResponse ext tsrBytes artifact pool opts =
        some (.error ("error parsing response into Timestamp: " ++ e))) ∧
    (∀ e1 e2, ("timestamp response is not valid: " ++ e1) ≠
      ("error parsing response into Timestamp: " ++ e2)) := by
  refine ⟨?_, ?_, ?_, ?_, rejected_ne_malformed⟩
  · intro e h; simp [CreateTimestampResponse, h]
  · intro e h; simp [CreateTimestampResponse, h]
  · intro e h; simp [VerifyTimestampResponse, h]
  · intro e h; simp [VerifyTimestampResponse, h]

/-- C6 witness: the rejected branch and the distinctness conjunct applied
concretely. -/
theorem c6_rejected_distinct_from_malformed_witness :
    CreateTimestampResponse (fun _ => .parseError "status 2") [0] =
      .error ("timestamp response is not valid: " ++ "status 2") ∧
    ("timestamp response is not valid: " ++ "a") ≠
      ("error parsing response into Timestamp: " ++ "b") :=
  ⟨(c6_rejected_distinct_from_malformed (fun _ => .parseError "status 2")
      extGood [0] [] [] optsEmpty).1 "status 2" rfl,
   (c6_rejected_distinct_from_malformed (fun _ => .parseError "status 2")
      extGood [0] [] [] optsEmpty).2.2.2.2 "a" "b"⟩

/-- C3: once the response parses, the verify operation is exactly the
first-failure semantics of the six checks in the order signature/chain,
nonce, policy OID, EKU chaining, leaf certificate, hash equality: it stops
at the first check that does not succeed and returns the reason of that check,
and a later check runs only when every earlier one succeeded. -/
theorem c3_checks_in_order_first_failure (ext : ExternalOps)
    (tsrBytes artifact : List Nat) (certPool : List Cert) (opts : VerifyOpts)
    (ts : Timestamp) (hparse : ext.parseResponse tsrBytes = .success ts) :
    VerifyTimestampResponse ext tsrBytes artifact certPool opts =
      firstFailure (verificationChecks ext ts artifact certPool opts) := by
  unfold VerifyTimestampResponse verificationChecks
  rw [hparse]
  cases h1 : verifyTSRWithChain ext.pkcs7Parse ext.verifyWithChain ts certPool with
  | error e => simp [h1, firstFailure]
  | ok u1 =>
    cases u1
    cases h2 : verifyNonce ts.nonce opts with
    | none => simp [h1, h2, firstFailure]
    | some r2 =>
      cases r2 with
      | error e => simp [h1, h2, firstFailure]
      | ok u2 =>
        cases u2
        cases h3 : verifyOID ts.policy opts with
        | error e => simp [h1, h2, h3, firstFailure]
        | ok u3 =>
          cases u3
          cases h4 : verifyLeafAndIntermediatesEKU opts with
          | error e => simp [h1, h2, h3, h4, firstFailure]
          | ok u4 =>
            cases u4
            cases h5 : ts.certificates with
            | nil => simp [h1, h2, h3, h4, h5, firstFailure]
            | cons c0 rest =>
              cases h6 : verifyHashedMessages (ext.hashEval ts.hashAlgorithm)
                  ts.hashedMessage artifact with
              | error e =>
                simp [h1, h2, h3, h4, h5, h6, firstFailure, verifyLeafCert_eq_ok]
              | ok u6 =>
                cases u6
                simp [h1, h2, h3, h4, h5, h6, firstFailure, verifyLeafCert_eq_ok]

/-- C3 witness: the equivalence applied at a concrete parsed response. -/
theorem c3_checks_in_order_first_failure_witness :
    VerifyTimestampResponse extGood [0] [3, 4] [] optsMatch =
      firstFailure (verificationChecks extGood tsGood [3, 4] [] optsMatch) :=
  c3_checks_in_order_first_failure extGood [0] [3, 4] [] optsMatch tsGood rfl

/-- C9 counterexample: a response that parses successfully and whose PKCS7
signature verifies, embedding no certificate, on which the verify operation
still returns an error normally (the nonce check fails first) — so, as
stated, "element 0 is read unconditionally" and "total only when at least
one certificate is embedded" are both false: an earlier policy check can
fail first. -/
theorem c9_counterexample_total_without_certs :
    extNoCerts.parseResponse [0] = .success tsNoCerts ∧
    verifyTSRWithChain extNoCerts.pkcs7Parse extNoCerts.verifyWithChain
      tsNoCerts [] = .ok () ∧
    tsNoCerts.certificates = [] ∧
    (VerifyTimestampResponse extNoCerts [0] [] [] optsNonce1).isSome = true := by
  refine ⟨rfl, rfl, rfl, by decide⟩

/-- C9 amended: if additionally the nonce, policy-OID and EKU checks succeed,
the operation reads element 0 of the embedded-certificate list: it panics
(index out of range, the `none` result) exactly when the parsed token embeds
no certificate, and returns normally when at least one is embedded. -/
theorem c9_certificates_zero_read (ext : ExternalOps)
    (tsrBytes artifact : List Nat) (certPool : List Cert) (opts : VerifyOpts)
    (ts : Timestamp) (hparse : ext.parseResponse tsrBytes = .success ts)
    (hchain : verifyTSRWithChain ext.pkcs7Parse ext.verifyWithChain ts certPool = .ok ())
    (hnonce : verifyNonce ts.nonce opts = some (.ok ()))
    (hoid : verifyOID ts.policy opts = .ok ())
    (heku : verifyLeafAndIntermediatesEKU opts = .ok ()) :
    (VerifyTimestampResponse ext tsrBytes artifact certPool opts = none ↔
      ts.certificates = []) := by
  unfold VerifyTimestampResponse
  rw [hparse]
  simp only [hchain, hnonce, hoid, heku]
  cases h5 : ts.certificates with
  | nil => simp
  | cons c0 rest => simp [verifyLeafCert_eq_ok]

/-- C9 witness for the amended statement, at a response embedding one
certificate. -/
theorem c9_certificates_zero_read_witness :
    VerifyTimestampResponse extGood [0] [] [] optsEmpty = none ↔
      tsGood.certificates = [] :=
  c9_certificates_zero_read extGood [0] [] [] optsEmpty tsGood rfl rfl rfl rfl rfl

/-- C2: round trip.  For a valid request, a response built by the handler
(its semantic fields are those of `buildTimestamp`, its embedded chain is
the authority identity with time-stamping EKU, its signature verifies
against the matching trust anchors) verifies successfully under options
matching the request: same nonce, the response policy OID, the issuing
leaf and intermediates, and the digest of the same artifact. -/
theorem c2_round_trip (ext : ExternalOps) (now : Int) (req : TSRequest)
    (respBytes artifact : List Nat) (certPool : List Cert) (ts : Timestamp)
    (leafCert : Cert) (inters : List Cert) (p7 : P7Message) (opts : VerifyOpts)
    (hparse : ext.parseResponse respBytes = .success ts)
    (hhash : ts.hashAlgorithm = (buildTimestamp now req).hashAlgorithm)
    (hmsg : ts.hashedMessage = (buildTimestamp now req).hashedMessage)
    (hnonce : ts.nonce = (buildTimestamp now req).nonce)
    (hpolicy : ts.policy = (buildTimestamp now req).policy)
    (hcerts : ts.certificates = leafCert :: inters)
    (hp7 : ext.pkcs7Parse ts.rawToken = .ok p7)
    (hchain : ext.verifyWithChain p7 certPool = .ok ())
    (heku : ∀ c ∈ leafCert :: inters, c.extKeyUsage = [EKU.timeStamping])
    (hdigest : ext.hashEval req.hashAlgorithm artifact = req.hashedMessage)
    (honce : opts.nonce = req.nonce)
    (hoid : opts.oid = some (responsePolicyID req.tsaPolicyOID))
    (hleaf : opts.tsaCertificate = some leafCert)
    (hint : opts.intermediates = some inters) :
    VerifyTimestampResponse ext respBytes artifact certPool opts =
      some (.ok ()) := by
  simp only [buildTimestamp] at hhash hmsg hnonce hpolicy
  have hchainEq : verifyTSRWithChain ext.pkcs7Parse ext.verifyWithChain ts certPool
      = .ok () := by
    unfold verifyTSRWithChain
    rw [hp7]
    simp [hchain]
  have hnonceEq : verifyNonce ts.nonce opts = some (.ok ()) := by
    rw [hnonce]
    cases hc : req.nonce with
    | none =>
      rw [hc] at honce
      simp [verifyNonce, honce]
    | some n =>
      rw [hc] at honce
      simp [verifyNonce, honce]
  have hoidEq : verifyOID ts.policy opts = .ok () := by
    rw [hpolicy]
    exact verifyOID_self _ opts hoid
  have hekuLeaf : verifyExtendedKeyUsage leafCert = .ok () :=
    (verifyExtendedKeyUsage_ok_iff leafCert).2 (heku leafCert (List.mem_cons_self _ _))
  have hekuInt : intermediatesEKULoop inters = .ok () :=
    (intermediatesEKULoop_ok_iff inters).2 (fun c hc => heku c (List.mem_cons_of_mem _ hc))
  have hekuEq : verifyLeafAndIntermediatesEKU opts = .ok () := by
    unfold verifyLeafAndIntermediatesEKU
    rw [hleaf, hint]
    simp [hekuLeaf, hekuInt]
  have hhashEq : verifyHashedMessages (ext.hashEval ts.hashAlgorithm)
      ts.hashedMessage artifact = .ok () := by
    rw [hhash, hmsg]
    simp [verifyHashedMessages, hdigest]
  unfold VerifyTimestampResponse
  rw [hparse]
  simp [hchainEq, hnonceEq, hoidEq, hekuEq, hcerts, verifyLeafCert_eq_ok, hhashEq]

/-- C2 witness: the round trip applied at a concrete valid request, identity
and matching options. -/
theorem c2_round_trip_witness :
    VerifyTimestampResponse extGood [0] [3, 4] [certTS] optsMatch =
      some (.ok ()) :=
  c2_round_trip extGood 0 reqGood [0] [3, 4] [certTS] tsGood certTS [] { raw := [6] }
    optsMatch rfl (by decide) (by decide) (by decide) (by decide) rfl rfl rfl
    (by decide) rfl rfl (by decide) rfl rfl

/-- C7: whenever the handler reaches its `CreateResponse` call for a
validated request, the timestamp it passes carries the fixed default policy
OID 1.3.6.1.4.1.57264.2 when the request specified none (empty OID renders
as the empty string), and the policy OID of the request unchanged otherwise. -/
theorem c7_policy_oid_defaulting (env : HandlerEnv) (contentType : String)
    (r : TSRequest) (ts : Timestamp) (kind : MarshalKind)
    (hmem : HEvent.createResponseCalled ts kind ∈
      (handlerAfterDecode env contentType (some r)).1) :
    (r.tsaPolicyOID = [] → ts.policy = defaultPolicyOID) ∧
    (r.tsaPolicyOID ≠ [] → ts.policy = r.tsaPolicyOID) := by
  unfold handlerAfterDecode at hmem
  cases h1 : env.verifyRequest (some r) with
  | error e =>
    rw [h1] at hmem
    simp at hmem
  | ok u =>
    cases u
    rw [h1] at hmem
    have hts : ts = buildTimestamp env.now r := by
      simp at hmem
      exact hmem.1
    constructor
    · intro hz
      rw [hts]
      simp [buildTimestamp, responsePolicyID, hz, oidString]
    · intro hnz
      rw [hts]
      simp [buildTimestamp, responsePolicyID, oidString_ne_empty r.tsaPolicyOID hnz]

/-- C7 witness: a concrete run of the handler tail with a request that
specifies OID 1.2.3, at which the theorem is applied. -/
theorem c7_policy_oid_defaulting_witness :
    (reqGood.tsaPolicyOID = [] →
      (buildTimestamp 0 reqGood).policy = defaultPolicyOID) ∧
    (reqGood.tsaPolicyOID ≠ [] →
      (buildTimestamp 0 reqGood).policy = reqGood.tsaPolicyOID) :=
  c7_policy_oid_defaulting envGood "" reqGood (buildTimestamp 0 reqGood)
    MarshalKind.der (by decide)

/-- C8: the certificate maker validates the root and leaf template paths —
and the intermediate template path when an intermediate key id is
configured — before `CreateCertificates`, the only step that performs
signing (specification section 4.2): `CreateCertificates` is reached only
when every required validation succeeded, and a failed validation ends the
run with an error without reaching it. -/
theorem c8_templates_validated_before_signing (env : CMEnv) (cfg : CMConfig) :
    (CMEvent.createCertificatesCalled ∈ (runCreate env cfg).1 →
      env.validateTemplatePath cfg.rootTemplate = .ok () ∧
      env.validateTemplatePath cfg.leafTemplate = .ok () ∧
      (cfg.intermediateKeyID ≠ "" →
        env.validateTemplatePath cfg.intermediateTemplate = .ok ())) ∧
    (env.initKMS = .ok () →
      (env.validateTemplatePath cfg.rootTemplate ≠ .ok () ∨
       env.validateTemplatePath cfg.leafTemplate ≠ .ok () ∨
       (cfg.intermediateKeyID ≠ "" ∧
        env.validateTemplatePath cfg.intermediateTemplate ≠ .ok ())) →
      CMEvent.createCertificatesCalled ∉ (runCreate env cfg).1 ∧
      ∃ e, (runCreate env cfg).2 = .error e) := by
  unfold runCreate
  cases hk : env.initKMS with
  | error e => simp
  | ok uk =>
    cases uk
    cases h1 : env.validateTemplatePath cfg.rootTemplate with
    | error e => simp
    | ok u1 =>
      cases u1
      cases h2 : env.validateTemplatePath cfg.leafTemplate with
      | error e => simp
      | ok u2 =>
        cases u2
        by_cases hi : cfg.intermediateKeyID = ""
        · simp only [hi, ne_eq, not_true_eq_false, if_false, false_and]
          simp
        · simp only [hi, ne_eq, not_false_eq_true, if_true]
          cases h3 : env.validateTemplatePath cfg.intermediateTemplate with
          | error e => simp
          | ok u3 =>
            cases u3
            simp

/-- C8 witness: a run whose root template validation fails ends in an error
without calling `CreateCertificates`. -/
theorem c8_templates_validated_before_signing_witness :
    CMEvent.createCertificatesCalled ∉ (runCreate cmEnvBadRoot cmCfg).1 ∧
    ∃ e, (runCreate cmEnvBadRoot cmCfg).2 = .error e :=
  (c8_templates_validated_before_signing cmEnvBadRoot cmCfg).2 rfl
    (Or.inl (by decide))

/-- C10: with a Content-Type header that is neither JSON nor
timestamp-query, the handler calls neither parser, reaches request
validation with a nil request (so there is no decode-stage bad-request),
any marshaller it would select is the DER one ("" is the content type left
by the unknown branch, and only "application/json" selects JSON), and the
outcome is the validation error as a bad request, or — validation passing the
nil request — the nil dereference at the policy-OID read. -/
theorem c10_unknown_content_type_skips_decode (env : HandlerEnv)
    (header : String) (body : List Nat)
    (hread : env.readBody = .ok body)
    (hj : header ≠ "application/json")
    (hq : header ≠ "application/timestamp-query") :
    HEvent.parseJSONCalled ∉ (TimestampResponseHandler env header).1 ∧
    HEvent.parseASN1Called ∉ (TimestampResponseHandler env header).1 ∧
    HEvent.verifyRequestCalled none ∈ (TimestampResponseHandler env header).1 ∧
    (∀ kind, HEvent.marshalSelected kind ∈ (TimestampResponseHandler env header).1 →
      kind = MarshalKind.der) ∧
    selectMarshalKind "" = MarshalKind.der ∧
    (∀ e, env.verifyRequest none = .error e →
      (TimestampResponseHandler env header).2 = some (.badRequest e)) ∧
    (env.verifyRequest none = .ok () →
      (TimestampResponseHandler env header).2 = none) := by
  have hunfold : TimestampResponseHandler env header =
      (.readAll :: (handlerAfterDecode env "" none).1,
        (handlerAfterDecode env "" none).2) := by
    unfold TimestampResponseHandler
    rw [hread]
    simp [hj, hq]
  rw [hunfold]
  unfold handlerAfterDecode
  cases h1 : env.verifyRequest none with
  | error e =>
    refine ⟨by simp, by simp, by simp, ?_, rfl, ?_, ?_⟩
    · intro kind hk
      simp at hk
    · intro e2 h2
      have he : e = e2 := by
        injection h2
      rw [he]
    · intro h2
      exact absurd h2 (by simp)
  | ok u =>
    cases u
    refine ⟨by simp, by simp, by simp, ?_, rfl, ?_, ?_⟩
    · intro kind hk
      simp at hk
    · intro e2 h2
      exact absurd h2 (by simp)
    · intro _
      rfl

/-- C10 witness: the theorem applied at a concrete unknown content type. -/
theorem c10_unknown_content_type_skips_decode_witness :
    HEvent.parseJSONCalled ∉ (TimestampResponseHandler envGood "text/plain").1 ∧
    HEvent.parseASN1Called ∉ (TimestampResponseHandler envGood "text/plain").1 ∧
    HEvent.verifyRequestCalled none ∈ (TimestampResponseHandler envGood "text/plain").1 ∧
    (∀ kind, HEvent.marshalSelected kind ∈ (TimestampResponseHandler envGood "text/plain").1 →
      kind = MarshalKind.der) ∧
    selectMarshalKind "" = MarshalKind.der ∧
    (∀ e, envGood.verifyRequest none = .error e →
      (TimestampResponseHandler envGood "text/plain").2 = some (.badRequest e)) ∧
    (envGood.verifyRequest none = .ok () →
      (TimestampResponseHandler envGood "text/plain").2 = none) :=
  c10_unknown_content_type_skips_decode envGood "text/plain" [0] rfl
    (by decide) (by decide)

end TSA
